import Mathlib

/-
  Verification of the express-locallibrary controller layer.

  Shallow embedding of the two controller modules (the Genre controller and
  the BookInstance controller) over an explicit document store.  Handlers are
  modelled as pure functions from a request and a store to an updated store
  and a response value; the express-validator chains attached to each POST
  handler are translated field by field (trim, length checks, HTML escaping,
  the optional ISO-8601 date check).  The Mongoose models themselves
  (models/genre.js, models/book.js, models/bookinstance.js) are not part of
  the provided sources; their fields and derived urls are modelled from the
  spec's data-model section.
-/

namespace LocalLibrary

/-- Modelled from the spec: the Genre model (models/genre.js is not in the
provided sources): id plus a required string field named name. -/
structure Genre where
  id : String
  name : String
deriving Repr, DecidableEq

/-- Modelled from the spec: derived Genre url, /catalog/genre/id. -/
def Genre.url (g : Genre) : String := "/catalog/genre/" ++ g.id

/-- Modelled from the spec: the Book model (models/book.js is not in the
provided sources): id, title, summary and a genre reference field. -/
structure Book where
  id : String
  title : String
  summary : String
  genre : String
deriving Repr, DecidableEq

/-- Modelled from the spec: the BookInstance model (models/bookinstance.js is
not in the provided sources): id, required book reference, required imprint,
status string, optional due_back date (kept as its ISO string here). -/
structure BookInstance where
  id : String
  book : String
  imprint : String
  status : String
  due_back : Option String
deriving Repr, DecidableEq

/-- Modelled from the spec: derived BookInstance url, /catalog/bookinstance/id. -/
def BookInstance.url (b : BookInstance) : String := "/catalog/bookinstance/" ++ b.id

/-- The document store backing the controllers: one collection per model. -/
structure Store where
  genres : List Genre
  books : List Book
  instances : List BookInstance
deriving Repr, DecidableEq

/-- A field-level validation error as collected by express-validator:
the offending path and the message of the failed rule. -/
structure ValidationError where
  path : String
  msg : String
deriving Repr, DecidableEq

/- ---------------- string helpers: the validator.js sanitizers ---------------- -/

/-- JavaScript-style trim: drop leading and trailing whitespace
(model of the .trim() sanitizer of express-validator). -/
def jsTrim (s : String) : String :=
  ⟨((s.data.dropWhile Char.isWhitespace).reverse.dropWhile Char.isWhitespace).reverse⟩

/-- HTML-escape one character the way the validator.js escape sanitizer does:
the characters and-sign, less-than, greater-than, double quote, single quote,
slash, backslash and backquote (character codes 38 60 62 34 39 47 92 96)
become entities, everything else is kept. -/
def escapeChar (c : Char) : List Char :=
  if c.toNat == 38 then [Char.ofNat 38, 'a', 'm', 'p', ';']
  else if c.toNat == 60 then [Char.ofNat 38, 'l', 't', ';']
  else if c.toNat == 62 then [Char.ofNat 38, 'g', 't', ';']
  else if c.toNat == 34 then [Char.ofNat 38, 'q', 'u', 'o', 't', ';']
  else if c.toNat == 39 then [Char.ofNat 38, '#', 'x', '2', '7', ';']
  else if c.toNat == 47 then [Char.ofNat 38, '#', 'x', '2', 'F', ';']
  else if c.toNat == 92 then [Char.ofNat 38, '#', 'x', '5', 'C', ';']
  else if c.toNat == 96 then [Char.ofNat 38, '#', '9', '6', ';']
  else [c]

/-- Model of the .escape() sanitizer of express-validator. -/
def jsEscape (s : String) : String :=
  ⟨(s.data.map escapeChar).flatten⟩

/-- String length as the number of characters (the form values in the claims
are plain ASCII, where this agrees with the JavaScript length). -/
def jsLength (s : String) : Nat := s.data.length

/- ---------------- store primitives (Mongoose calls) ---------------- -/

/-- Genre.findById: first record whose id matches, if any. -/
def findGenre (l : List Genre) (i : String) : Option Genre :=
  l.find? (fun g => g.id == i)

/-- Genre.findOne on a name filter: first record whose name matches. -/
def findGenreByName (l : List Genre) (n : String) : Option Genre :=
  l.find? (fun g => g.name == n)

/-- Genre.findByIdAndDelete: remove the record with the given id
(a no-op when no record matches). -/
def deleteGenreById (l : List Genre) (i : String) : List Genre :=
  l.filter (fun g => !(g.id == i))

/-- Book.find on a genre filter: all books referencing the given genre id. -/
def booksUsingGenre (l : List Book) (i : String) : List Book :=
  l.filter (fun b => b.genre == i)

/-- BookInstance.findByIdAndDelete: remove the record with the given id
(a no-op when no record matches). -/
def deleteInstanceById (l : List BookInstance) (i : String) : List BookInstance :=
  l.filter (fun b => !(b.id == i))

/-- BookInstance.findByIdAndUpdate with a full document: replace the record
with the matching id by the new document (a no-op when no record matches). -/
def replaceInstanceById (l : List BookInstance) (i : String) (b : BookInstance) :
    List BookInstance :=
  l.map (fun x => if x.id == i then b else x)

/- ---------------- sorting (Mongoose .sort) ---------------- -/

/-- Lexicographic order on character lists by character code. -/
def charListLe : List Char → List Char → Bool
  | [], _ => true
  | _ :: _, [] => false
  | a :: as, b :: bs =>
    if a.toNat < b.toNat then true
    else if b.toNat < a.toNat then false
    else charListLe as bs

/-- Lexicographic order on strings. -/
def strLe (a b : String) : Bool := charListLe a.data b.data

/-- Stable insertion into a sorted list: the new element goes before the
first element it is le-related to. -/
def insertLe (le : α → α → Bool) (a : α) : List α → List α
  | [] => [a]
  | x :: xs => if le a x then a :: x :: xs else x :: insertLe le a xs

/-- Stable insertion sort. -/
def sortWith (le : α → α → Bool) (l : List α) : List α :=
  l.foldr (insertLe le) []

/-- MongoDB ascending comparison on an optional sort key: records missing the
key compare equal to each other and sort before records carrying it. -/
def optFieldLe : Option String → Option String → Bool
  | none, _ => true
  | some _, none => false
  | some a, some b => strLe a b

/-- Field access on a Genre document by field name, as the MongoDB sort sees
it: only the two real fields exist, every other key is missing. -/
def Genre.getField (g : Genre) (f : String) : Option String :=
  if f == "name" then some g.name
  else if f == "_id" then some g.id
  else none

/-- Mongoose .sort on a Genre query with an ascending key given by name. -/
def mongoSortGenres (f : String) (l : List Genre) : List Genre :=
  sortWith (fun a b => optFieldLe (a.getField f) (b.getField f)) l

/-- Mongoose Book.find({}, "title").sort({ title: 1 }): all books sorted
ascending by title. -/
def allBooksSortedByTitle (l : List Book) : List Book :=
  sortWith (fun a b => strLe a.title b.title) l

/- ---------------- Genre controller (src/unnamed/part_000) ---------------- -/

/-- The responses a Genre handler can produce: each render constructor names
the view and carries exactly the view-model fields the handler passes,
redirect carries the location, nextError models next(err) with err.status. -/
inductive GenreResponse where
  | renderList (title : String) (genre_list : List Genre)
  | renderDetail (title : String) (genre : Genre) (genre_books : List Book)
  | renderForm (title : String) (genre : Genre) (errors : List ValidationError)
  | renderDelete (title : String) (genre : Option Genre) (books_using_genre : List Book)
  | redirect (loc : String)
  | nextError (status : Nat) (msg : String)
deriving Repr, DecidableEq

/-- genre_list: Genre.find().sort({ genre_name: 1 }), then render genre_list.
The sort key written in the source is genre_name, not the model's name field. -/
def genre_list (s : Store) : GenreResponse :=
  GenreResponse.renderList ("Genre List") (mongoSortGenres ("genre_name") s.genres)

/-- genre_detail: fetch the genre by the route id and the books referencing
it; 404 via next(err) when the genre is absent, else render genre_detail. -/
def genre_detail (s : Store) (params_id : String) : GenreResponse :=
  let genre := findGenre s.genres params_id
  let booksInGenre := booksUsingGenre s.books params_id
  match genre with
  | none => GenreResponse.nextError 404 ("Genre not found")
  | some g => GenreResponse.renderDetail ("Genre Detail") g booksInGenre

/-- The request body of a genre create POST: the single form field name. -/
structure GenreCreateReq where
  name : String
deriving Repr, DecidableEq

/-- The validation chain attached to genre_create_post:
body("name").trim().isLength({ min: 3 }).escape().  The sanitized body value
after the chain has run. -/
def genreCreateSanitizedName (req : GenreCreateReq) : String :=
  jsEscape (jsTrim req.name)

/-- The errors the genre_create_post chain records: one error on name when
the trimmed value is shorter than 3 characters. -/
def genreCreateErrors (req : GenreCreateReq) : List ValidationError :=
  if jsLength (jsTrim req.name) < 3 then
    [⟨"name", "Genre name must contain at least 3 characters"⟩]
  else []

/-- genre_create_post (the handler behind the validation chain): on errors
re-render the form with the unsaved genre object and the error list; else
look the sanitized name up with findOne and either redirect to the existing
genre's url or save the new genre and redirect to its url.  freshId is the
ObjectId Mongoose generates for the new Genre document. -/
def genre_create_post (freshId : String) (req : GenreCreateReq) (s : Store) :
    Store × GenreResponse :=
  let errors := genreCreateErrors req
  let genre : Genre := ⟨freshId, genreCreateSanitizedName req⟩
  if !errors.isEmpty then
    (s, GenreResponse.renderForm ("Create Genre") genre errors)
  else
    match findGenreByName s.genres (genreCreateSanitizedName req) with
    | some genreExists => (s, GenreResponse.redirect genreExists.url)
    | none =>
      ({ s with genres := s.genres ++ [genre] }, GenreResponse.redirect genre.url)

/-- genre_delete_get: fetch the genre by the route id and the books
referencing it; when the genre is absent redirect to the genre list, else
render the delete-confirmation view. -/
def genre_delete_get (s : Store) (params_id : String) : GenreResponse :=
  let genre := findGenre s.genres params_id
  let booksUsing := booksUsingGenre s.books params_id
  match genre with
  | none => GenreResponse.redirect ("/catalog/genres")
  | some g => GenreResponse.renderDelete ("Delete Genre") (some g) booksUsing

/-- The request of a genre delete POST: the route id parameter and the
genreid form-body field. -/
structure GenreDeleteReq where
  params_id : String
  genreid : String
deriving Repr, DecidableEq

/-- genre_delete_post: re-fetch the genre (possibly null, there is no
missing-genre branch) and the books referencing the route id; when any exist
re-render the confirmation view without deleting, else delete the record
whose id is the form-body genreid and redirect to the list. -/
def genre_delete_post (s : Store) (req : GenreDeleteReq) : Store × GenreResponse :=
  let genre := findGenre s.genres req.params_id
  let booksUsing := booksUsingGenre s.books req.params_id
  if booksUsing.length > 0 then
    (s, GenreResponse.renderDelete ("Delete Genre") genre booksUsing)
  else
    ({ s with genres := deleteGenreById s.genres req.genreid },
      GenreResponse.redirect ("/catalog/genres"))

/- ------------- BookInstance controller (src/controllers/bookinstanceController.js) ------------- -/

/-- The responses a BookInstance handler can produce. -/
inductive BIResponse where
  | renderCreateForm (title : String) (book_list : List Book)
      (selected_book : String) (errors : List ValidationError)
      (bookinstance : BookInstance)
  | renderUpdateForm (title : String) (bookinstance : BookInstance)
      (book_list : List Book) (errors : List ValidationError)
  | redirect (loc : String)
  | nextError (status : Nat) (msg : String)
deriving Repr, DecidableEq

/-- The request body of a bookinstance create POST. An absent optional field
arrives as the empty string (the falsy case of the optional rule). -/
structure BICreateReq where
  book : String
  imprint : String
  status : String
  due_back : String
deriving Repr, DecidableEq

/-- The sanitized due_back value after
body("due_back").optional({ values: "falsy" }).isISO8601().toDate():
a falsy value is skipped, a parseable one becomes the date, an unparseable
one is rejected by isISO8601 (isoCheck stands for the library's ISO-8601
parse test). -/
def dueBackSanitized (isoCheck : String → Bool) (d : String) : Option String :=
  if d == "" then none
  else if isoCheck d then some d
  else none

/-- The errors recorded by the four validators of bookinstance_create_post,
in chain order: book required, imprint required, status only escaped, and
due_back optional-but-ISO-8601. -/
def biCreateErrors (isoCheck : String → Bool) (req : BICreateReq) : List ValidationError :=
  (if jsLength (jsTrim req.book) < 1 then
    [(⟨"book", "Book must be specified"⟩ : ValidationError)] else [])
  ++ (if jsLength (jsTrim req.imprint) < 1 then
    [(⟨"imprint", "Imprint must be specified"⟩ : ValidationError)] else [])
  ++ (if req.due_back != "" && !(isoCheck req.due_back) then
    [(⟨"due_back", "Invalid date"⟩ : ValidationError)] else [])

/-- The BookInstance object the create handler builds from the sanitized
body fields (the Mongoose-generated ObjectId is freshId). -/
def biCreateInstance (isoCheck : String → Bool) (freshId : String)
    (req : BICreateReq) : BookInstance :=
  ⟨freshId, jsEscape (jsTrim req.book), jsEscape (jsTrim req.imprint),
    jsEscape req.status, dueBackSanitized isoCheck req.due_back⟩

/-- bookinstance_create_post (the handler behind the validation chain): on
errors re-fetch all books sorted by title and re-render the form with the
attempted instance, the selected book and the errors; else save the instance
and redirect to its url. -/
def bookinstance_create_post (isoCheck : String → Bool) (freshId : String)
    (req : BICreateReq) (s : Store) : Store × BIResponse :=
  let errors := biCreateErrors isoCheck req
  let bookInstance := biCreateInstance isoCheck freshId req
  if !errors.isEmpty then
    (s, BIResponse.renderCreateForm ("Create BookInstance")
      (allBooksSortedByTitle s.books) bookInstance.book errors bookInstance)
  else
    ({ s with instances := s.instances ++ [bookInstance] },
      BIResponse.redirect bookInstance.url)

/-- The request of a bookinstance delete POST: the bookinstanceid form field. -/
structure BIDeleteReq where
  bookinstanceid : String
deriving Repr, DecidableEq

/-- bookinstance_delete_post: findByIdAndDelete on the form-body
bookinstanceid, then redirect to the list, unconditionally. -/
def bookinstance_delete_post (s : Store) (req : BIDeleteReq) : Store × BIResponse :=
  ({ s with instances := deleteInstanceById s.instances req.bookinstanceid },
    BIResponse.redirect ("/catalog/bookinstances"))

/-- The request of a bookinstance update POST: the route id parameter plus
the submitted body fields. -/
structure BIUpdateReq where
  params_id : String
  book : String
  imprint : String
  status : String
  due_back : String
deriving Repr, DecidableEq

/-- The validation chain attached to bookinstance_update_post.  The export
is a bare handler, not an array of middleware: NO validators are attached,
so the chain is empty. -/
def biUpdateChain : List (BIUpdateReq → List ValidationError) := []

/-- validationResult(req) as read by bookinstance_update_post: the errors
recorded by the validators of its (empty) chain. -/
def biUpdateErrors (req : BIUpdateReq) : List ValidationError :=
  (biUpdateChain.map (fun v => v req)).flatten

/-- The replacement BookInstance the update handler builds: the route id
plus the raw submitted fields (no sanitizers ran on them). -/
def biUpdateInstance (req : BIUpdateReq) : BookInstance :=
  ⟨req.params_id, req.book, req.imprint, req.status,
    if req.due_back == "" then none else some req.due_back⟩

/-- bookinstance_update_post: build the replacement object, inspect
validationResult; on errors re-render the form, else findByIdAndUpdate on
the route id and redirect to the instance's url. -/
def bookinstance_update_post (s : Store) (req : BIUpdateReq) : Store × BIResponse :=
  let bookInstance := biUpdateInstance req
  let errors := biUpdateErrors req
  if !errors.isEmpty then
    (s, BIResponse.renderUpdateForm ("Update BookInstance") bookInstance
      (allBooksSortedByTitle s.books) errors)
  else
    ({ s with instances := replaceInstanceById s.instances req.params_id bookInstance },
      BIResponse.redirect bookInstance.url)

/- ---------------- theorems ---------------- -/

/-- Deleting a genre record by id leaves no record with that id behind. -/
theorem findGenre_deleteGenreById (l : List Genre) (i : String) :
    findGenre (deleteGenreById l i) i = none := by
  apply List.find?_eq_none.mpr
  intro g hg
  have := List.of_mem_filter hg
  simpa using this

/-- Claim C1: for every genre delete_post request where at least one Book
references the genre identified by the route id parameter, no genre record
is deleted from the store (the store is unchanged) and the response
re-renders the delete-confirmation view listing those referencing books. -/
theorem genre_delete_post_refuses_when_books_exist (s : Store) (req : GenreDeleteReq)
    (h : booksUsingGenre s.books req.params_id ≠ []) :
    (genre_delete_post s req).1 = s ∧
    (genre_delete_post s req).2
      = GenreResponse.renderDelete ("Delete Genre")
          (findGenre s.genres req.params_id)
          (booksUsingGenre s.books req.params_id) := by
  have hlen : 0 < (booksUsingGenre s.books req.params_id).length :=
    List.length_pos.mpr h
  simp [genre_delete_post, hlen]

theorem genre_delete_post_refuses_witness :
    booksUsingGenre [⟨"b1", "T", "S", "g1"⟩] "g1" ≠ [] ∧
    ((genre_delete_post ⟨[⟨"g1", "Fantasy"⟩], [⟨"b1", "T", "S", "g1"⟩], []⟩ ⟨"g1", "g1"⟩).1
        = ⟨[⟨"g1", "Fantasy"⟩], [⟨"b1", "T", "S", "g1"⟩], []⟩ ∧
      (genre_delete_post ⟨[⟨"g1", "Fantasy"⟩], [⟨"b1", "T", "S", "g1"⟩], []⟩ ⟨"g1", "g1"⟩).2
        = GenreResponse.renderDelete ("Delete Genre")
            (findGenre [⟨"g1", "Fantasy"⟩] "g1")
            (booksUsingGenre [⟨"b1", "T", "S", "g1"⟩] "g1")) :=
  ⟨by decide,
    genre_delete_post_refuses_when_books_exist
      ⟨[⟨"g1", "Fantasy"⟩], [⟨"b1", "T", "S", "g1"⟩], []⟩ ⟨"g1", "g1"⟩ (by decide)⟩

/-- Claim C9: for every genre delete_post request where zero Books reference
the genre identified by the route id parameter, the genre record identified
by the form-body field genreid is removed from the store (deleted by id,
hence no longer findable) and the response redirects to the genre list. -/
theorem genre_delete_post_deletes_when_no_books (s : Store) (req : GenreDeleteReq)
    (h : booksUsingGenre s.books req.params_id = []) :
    (genre_delete_post s req).1
      = { s with genres := deleteGenreById s.genres req.genreid } ∧
    findGenre (genre_delete_post s req).1.genres req.genreid = none ∧
    (genre_delete_post s req).2 = GenreResponse.redirect ("/catalog/genres") := by
  have h2 : ¬ 0 < (booksUsingGenre s.books req.params_id).length := by
    simp [h]
  refine ⟨?_, ?_, ?_⟩ <;>
    simp [genre_delete_post, h2, findGenre_deleteGenreById]

theorem genre_delete_post_deletes_witness :
    booksUsingGenre ([] : List Book) "g1" = [] ∧
    ((genre_delete_post ⟨[⟨"g1", "Fantasy"⟩], [], []⟩ ⟨"g1", "g1"⟩).1
        = ⟨deleteGenreById [⟨"g1", "Fantasy"⟩] "g1", [], []⟩ ∧
      findGenre (genre_delete_post ⟨[⟨"g1", "Fantasy"⟩], [], []⟩ ⟨"g1", "g1"⟩).1.genres "g1"
        = none ∧
      (genre_delete_post ⟨[⟨"g1", "Fantasy"⟩], [], []⟩ ⟨"g1", "g1"⟩).2
        = GenreResponse.redirect ("/catalog/genres")) :=
  ⟨by decide,
    genre_delete_post_deletes_when_no_books ⟨[⟨"g1", "Fantasy"⟩], [], []⟩ ⟨"g1", "g1"⟩
      (by decide)⟩

/-- Claim C2, counterexample: a genre create_post whose submitted name
"A&B" passes validation (trimmed length 3) and exactly matches the name of
the existing genre g1, yet a new record IS inserted (with the escaped name)
and the response redirects to the new genre's detail url, not g1's. -/
theorem genre_create_post_duplicate_counterexample :
    3 ≤ jsLength (jsTrim "A&B") ∧
    (findGenreByName [⟨"g1", "A&B"⟩] "A&B").isSome ∧
    (genre_create_post "f1" ⟨"A&B"⟩ ⟨[⟨"g1", "A&B"⟩], [], []⟩).1.genres
      = [⟨"g1", "A&B"⟩, ⟨"f1", "A&amp;B"⟩] ∧
    (genre_create_post "f1" ⟨"A&B"⟩ ⟨[⟨"g1", "A&B"⟩], [], []⟩).2
      = GenreResponse.redirect ("/catalog/genre/f1") := by
  decide

/-- Claim C2, amended: for every genre create_post request whose submitted
name passes validation (trimmed length at least 3) and whose sanitized form
(trimmed then HTML-escaped) exactly matches the name of an existing Genre
(the first such match, as findOne returns it), no new record is inserted and
the response is a redirect to that genre's detail URL. -/
theorem genre_create_post_existing_name_no_insert (freshId : String)
    (req : GenreCreateReq) (s : Store) (g : Genre)
    (hlen : 3 ≤ jsLength (jsTrim req.name))
    (hex : findGenreByName s.genres (genreCreateSanitizedName req) = some g) :
    (genre_create_post freshId req s).1 = s ∧
    (genre_create_post freshId req s).2 = GenreResponse.redirect g.url := by
  have hne : ¬ jsLength (jsTrim req.name) < 3 := Nat.not_lt.mpr hlen
  simp [genre_create_post, genreCreateErrors, hne, hex]

theorem genre_create_post_existing_name_witness :
    3 ≤ jsLength (jsTrim "Fantasy") ∧
    findGenreByName [⟨"g1", "Fantasy"⟩] (genreCreateSanitizedName ⟨"Fantasy"⟩)
      = some ⟨"g1", "Fantasy"⟩ ∧
    ((genre_create_post "f1" ⟨"Fantasy"⟩ ⟨[⟨"g1", "Fantasy"⟩], [], []⟩).1
        = ⟨[⟨"g1", "Fantasy"⟩], [], []⟩ ∧
      (genre_create_post "f1" ⟨"Fantasy"⟩ ⟨[⟨"g1", "Fantasy"⟩], [], []⟩).2
        = GenreResponse.redirect (Genre.url ⟨"g1", "Fantasy"⟩)) :=
  ⟨by decide, by decide,
    genre_create_post_existing_name_no_insert "f1" ⟨"Fantasy"⟩
      ⟨[⟨"g1", "Fantasy"⟩], [], []⟩ ⟨"g1", "Fantasy"⟩ (by decide) (by decide)⟩

/-- Claim C4: the genre list handler sorts by the key genre_name, which no
Genre document carries (the model's field is name, as the controller's own
create and update handlers show), so the sort is a no-op for every store;
at the failing input below the rendered list is [Zeta, Alpha], while sorting
ascending by the name field would give [Alpha, Zeta]. -/
theorem genre_list_not_sorted_by_name :
    (∀ l : List Genre, mongoSortGenres ("genre_name") l = l) ∧
    genre_list ⟨[⟨"g1", "Zeta"⟩, ⟨"g2", "Alpha"⟩], [], []⟩
      = GenreResponse.renderList ("Genre List") [⟨"g1", "Zeta"⟩, ⟨"g2", "Alpha"⟩] ∧
    sortWith (fun a b : Genre => strLe a.name b.name)
        ([⟨"g1", "Zeta"⟩, ⟨"g2", "Alpha"⟩] : List Genre)
      = [⟨"g2", "Alpha"⟩, ⟨"g1", "Zeta"⟩] := by
  refine ⟨?_, by decide, by decide⟩
  intro l
  induction l with
  | nil => rfl
  | cons a t ih =>
    have hstep : mongoSortGenres ("genre_name") (a :: t)
        = insertLe (fun a b => optFieldLe (a.getField ("genre_name"))
            (b.getField ("genre_name"))) a (mongoSortGenres ("genre_name") t) := rfl
    rw [hstep, ih]
    cases t with
    | nil => rfl
    | cons b u => simp [insertLe, Genre.getField, optFieldLe]

/-- Claim C5: for every genre create_post request whose submitted name,
after trimming, has fewer than 3 characters, the store is unchanged and the
response re-renders the form (a render, not an error status) carrying the
entered value (in its sanitized, trimmed-and-escaped form) and exactly one
validation error referencing the name field. -/
theorem genre_create_post_rejects_short_name (freshId : String)
    (req : GenreCreateReq) (s : Store)
    (h : jsLength (jsTrim req.name) < 3) :
    (genre_create_post freshId req s).1 = s ∧
    (genre_create_post freshId req s).2
      = GenreResponse.renderForm ("Create Genre")
          ⟨freshId, jsEscape (jsTrim req.name)⟩
          [⟨"name", "Genre name must contain at least 3 characters"⟩] := by
  simp [genre_create_post, genreCreateErrors, genreCreateSanitizedName, h]

theorem genre_create_post_rejects_short_name_witness :
    jsLength (jsTrim "ab") < 3 ∧
    ((genre_create_post "f1" ⟨"ab"⟩ ⟨[], [], []⟩).1 = ⟨[], [], []⟩ ∧
      (genre_create_post "f1" ⟨"ab"⟩ ⟨[], [], []⟩).2
        = GenreResponse.renderForm ("Create Genre") ⟨"f1", jsEscape (jsTrim "ab")⟩
            [⟨"name", "Genre name must contain at least 3 characters"⟩]) :=
  ⟨by decide,
    genre_create_post_rejects_short_name "f1" ⟨"ab"⟩ ⟨[], [], []⟩ (by decide)⟩

/-- Claim C6: for every id matching no Genre record, genre_detail produces a
404 NotFound error forwarded via next(err), while genre_delete_get instead
responds with a redirect to the genre list and produces no error. -/
theorem genre_detail_vs_delete_get_missing (s : Store) (i : String)
    (h : findGenre s.genres i = none) :
    genre_detail s i = GenreResponse.nextError 404 ("Genre not found") ∧
    genre_delete_get s i = GenreResponse.redirect ("/catalog/genres") := by
  simp [genre_detail, genre_delete_get, h]

theorem genre_detail_vs_delete_get_missing_witness :
    findGenre ([⟨"g1", "Fantasy"⟩] : List Genre) "gX" = none ∧
    (genre_detail ⟨[⟨"g1", "Fantasy"⟩], [], []⟩ "gX"
        = GenreResponse.nextError 404 ("Genre not found") ∧
      genre_delete_get ⟨[⟨"g1", "Fantasy"⟩], [], []⟩ "gX"
        = GenreResponse.redirect ("/catalog/genres")) :=
  ⟨by decide,
    genre_detail_vs_delete_get_missing ⟨[⟨"g1", "Fantasy"⟩], [], []⟩ "gX" (by decide)⟩

/-- Claim C3: bookinstance_update_post has no validation chain attached, so
the error list it reads is empty for every request and the handler always
takes the success branch: it replaces the record whose id equals the route
id parameter by the instance built from the submitted fields and redirects
to that instance's detail url. -/
theorem bookinstance_update_post_always_succeeds (s : Store) (req : BIUpdateReq) :
    biUpdateErrors req = [] ∧
    (bookinstance_update_post s req).1
      = { s with instances :=
          replaceInstanceById s.instances req.params_id (biUpdateInstance req) } ∧
    (bookinstance_update_post s req).2
      = BIResponse.redirect ("/catalog/bookinstance/" ++ req.params_id) :=
  ⟨rfl, rfl, rfl⟩

/-- Claim C7: for every bookinstance create_post request whose due_back is
non-empty and fails the ISO-8601 check, the store is unchanged and the
response re-renders the form with the full book list sorted by title, the
submitted (sanitized) book id as the selected book, the attempted instance
and the chain's validation errors, among which is the Invalid date error on
due_back. -/
theorem bookinstance_create_post_bad_due_back (isoCheck : String → Bool)
    (freshId : String) (req : BICreateReq) (s : Store)
    (h1 : req.due_back ≠ "")
    (h2 : isoCheck req.due_back = false) :
    (bookinstance_create_post isoCheck freshId req s).1 = s ∧
    (bookinstance_create_post isoCheck freshId req s).2
      = BIResponse.renderCreateForm ("Create BookInstance")
          (allBooksSortedByTitle s.books)
          (biCreateInstance isoCheck freshId req).book
          (biCreateErrors isoCheck req)
          (biCreateInstance isoCheck freshId req) ∧
    (⟨"due_back", "Invalid date"⟩ : ValidationError) ∈ biCreateErrors isoCheck req := by
  have hb : (req.due_back != "" && !(isoCheck req.due_back)) = true := by
    simp [bne_iff_ne, h1, h2]
  have hmem : (⟨"due_back", "Invalid date"⟩ : ValidationError)
      ∈ biCreateErrors isoCheck req := by
    unfold biCreateErrors
    rw [hb]
    simp
  have hne : biCreateErrors isoCheck req ≠ [] := by
    intro hE
    rw [hE] at hmem
    cases hmem
  have hEmp : (biCreateErrors isoCheck req).isEmpty = false := by
    cases hE : biCreateErrors isoCheck req with
    | nil => exact absurd hE hne
    | cons e es => rfl
  refine ⟨?_, ?_, hmem⟩ <;> simp [bookinstance_create_post, hEmp]

theorem bookinstance_create_post_bad_due_back_witness :
    ("baddate" : String) ≠ "" ∧
    (fun _ : String => false) "baddate" = false ∧
    (((bookinstance_create_post (fun _ => false) "i1" ⟨"b1", "Imp", "Available", "baddate"⟩
          ⟨[], [⟨"b1", "T", "S", "g1"⟩], []⟩).1 = ⟨[], [⟨"b1", "T", "S", "g1"⟩], []⟩ ∧
      (bookinstance_create_post (fun _ => false) "i1" ⟨"b1", "Imp", "Available", "baddate"⟩
          ⟨[], [⟨"b1", "T", "S", "g1"⟩], []⟩).2
        = BIResponse.renderCreateForm ("Create BookInstance")
            (allBooksSortedByTitle [⟨"b1", "T", "S", "g1"⟩])
            (biCreateInstance (fun _ => false) "i1" ⟨"b1", "Imp", "Available", "baddate"⟩).book
            (biCreateErrors (fun _ => false) ⟨"b1", "Imp", "Available", "baddate"⟩)
            (biCreateInstance (fun _ => false) "i1" ⟨"b1", "Imp", "Available", "baddate"⟩) ∧
      (⟨"due_back", "Invalid date"⟩ : ValidationError)
        ∈ biCreateErrors (fun _ => false) ⟨"b1", "Imp", "Available", "baddate"⟩)) :=
  ⟨by decide, rfl,
    bookinstance_create_post_bad_due_back (fun _ => false) "i1"
      ⟨"b1", "Imp", "Available", "baddate"⟩ ⟨[], [⟨"b1", "T", "S", "g1"⟩], []⟩
      (by decide) rfl⟩

/-- Claim C8: every bookinstance delete_post request deletes the record
whose id equals the form-body field bookinstanceid (a no-op when no record
matches, with no existence or dependency check) and always responds with a
redirect to the bookinstance list page. -/
theorem bookinstance_delete_post_unconditional (s : Store) (req : BIDeleteReq) :
    (bookinstance_delete_post s req).1
      = { s with instances := deleteInstanceById s.instances req.bookinstanceid } ∧
    (bookinstance_delete_post s req).2
      = BIResponse.redirect ("/catalog/bookinstances") :=
  ⟨rfl, rfl⟩

/-- Claim C10: genre_delete_post has no missing-genre branch: when the route
id matches no Genre, then if no Books reference that id the handler still
deletes by the form-body genreid and redirects to the list, and if Books do
reference that id it renders the confirmation view with a null genre. -/
theorem genre_delete_post_missing_genre (s : Store) (req : GenreDeleteReq)
    (h : findGenre s.genres req.params_id = none) :
    (booksUsingGenre s.books req.params_id = [] →
      genre_delete_post s req
        = ({ s with genres := deleteGenreById s.genres req.genreid },
            GenreResponse.redirect ("/catalog/genres"))) ∧
    (booksUsingGenre s.books req.params_id ≠ [] →
      genre_delete_post s req
        = (s, GenreResponse.renderDelete ("Delete Genre") none
            (booksUsingGenre s.books req.params_id))) := by
  constructor
  · intro hb
    have h2 : ¬ 0 < (booksUsingGenre s.books req.params_id).length := by
      simp [hb]
    simp [genre_delete_post, h2]
  · intro hb
    have h2 : 0 < (booksUsingGenre s.books req.params_id).length :=
      List.length_pos.mpr hb
    simp [genre_delete_post, h2, h]

theorem genre_delete_post_missing_genre_witness :
    findGenre ([] : List Genre) "gX" = none ∧
    ((booksUsingGenre [⟨"b1", "T", "S", "gX"⟩] "gX" = [] →
      genre_delete_post ⟨[], [⟨"b1", "T", "S", "gX"⟩], []⟩ ⟨"gX", "gY"⟩
        = (⟨deleteGenreById [] "gY", [⟨"b1", "T", "S", "gX"⟩], []⟩,
            GenreResponse.redirect ("/catalog/genres"))) ∧
    (booksUsingGenre [⟨"b1", "T", "S", "gX"⟩] "gX" ≠ [] →
      genre_delete_post ⟨[], [⟨"b1", "T", "S", "gX"⟩], []⟩ ⟨"gX", "gY"⟩
        = (⟨[], [⟨"b1", "T", "S", "gX"⟩], []⟩,
            GenreResponse.renderDelete ("Delete Genre") none
              (booksUsingGenre [⟨"b1", "T", "S", "gX"⟩] "gX")))) :=
  ⟨by decide,
    genre_delete_post_missing_genre ⟨[], [⟨"b1", "T", "S", "gX"⟩], []⟩ ⟨"gX", "gY"⟩
      (by decide)⟩

end LocalLibrary
